import Mathlib

/-!
Verification of the EVA Python core (`src/python/eva_core.py`): a request
dispatcher with four pluggable capability components (NLP, ML trainer, data
analyzer, neural engine).  The Python code is shallowly embedded: Python
dictionaries become ordered association lists over a JSON-like `Value` type,
raised exceptions become `Except String`, and the mutable object fields
(`self.models`, `self.networks`, `self.is_initialized`, the dispatcher's
model catalog) become an explicit state record threaded through the
dispatcher.
-/

/-- A Python value as it occurs in the request/response dictionaries of
`eva_core.py`.  Python floats are modelled as rationals (no claim depends on
IEEE rounding); Python `None` is the `none` constructor. -/
inductive Value where
  | str (s : String)
  | int (n : Int)
  | float (q : ℚ)
  | bool (b : Bool)
  | none
  | list (vs : List Value)
  | dict (kvs : List (String × Value))

/-- A Python `Dict[str, Any]` as an insertion-ordered association list. -/
abbrev Obj := List (String × Value)

/-- Python `d.get(k, default)`. -/
def dictGetD (o : Obj) (k : String) (d : Value) : Value :=
  (List.lookup k o).getD d

/-- Python `d.get(k)` (default `None`). -/
def dictGetNone (o : Obj) (k : String) : Value :=
  (List.lookup k o).getD .none

/-- Python `d[k] = v`: replace the value at an existing key in place,
otherwise append the new binding (insertion order, as for a Python dict). -/
def dictSet {α : Type} (o : List (String × α)) (k : String) (v : α) : List (String × α) :=
  match o with
  | [] => [(k, v)]
  | (k1, v1) :: rest => if k1 == k then (k1, v) :: rest else (k1, v1) :: dictSet rest k v

/-- Python truthiness (`if not x`) for the embedded values. -/
def pyTruthy : Value → Bool
  | .str s => !(s == "")
  | .int n => !(n == 0)
  | .float q => !(q == 0)
  | .bool b => b
  | .none => false
  | .list vs => !vs.isEmpty
  | .dict kvs => !kvs.isEmpty

/-- The Python type name of a value, used in error messages. -/
def pyTypeName : Value → String
  | .str _ => "str"
  | .int _ => "int"
  | .float _ => "float"
  | .bool _ => "bool"
  | .none => "NoneType"
  | .list _ => "list"
  | .dict _ => "dict"

/-- Python `str(v)` as used in f-string error interpolations.  Containers are
rendered shallowly: no claim inspects those message texts. -/
def pyStr : Value → String
  | .str s => s
  | .int n => toString n
  | .float q => toString q
  | .bool b => if b then "True" else "False"
  | .none => "None"
  | .list _ => "[...]"
  | .dict _ => "\x7b...\x7d"

/-- Python `len(v)`: defined for sized values, a `TypeError` otherwise
(message text approximates CPython's). -/
def pyLen : Value → Except String Nat
  | .str s => .ok s.length
  | .list vs => .ok vs.length
  | .dict kvs => .ok kvs.length
  | v => .error ("object of type \x27" ++ pyTypeName v ++ "\x27 has no len()")

/-- Python subscript `v[0]` as it occurs in `analyze_data` (`dataset[0]`):
first element of a list, first character of a string, `KeyError` on a
string-keyed dict, `TypeError` otherwise. -/
def pyIndex0 : Value → Except String Value
  | .list [] => .error "list index out of range"
  | .list (v :: _) => .ok v
  | .str s =>
    match s.data with
    | [] => .error "string index out of range"
    | c :: _ => .ok (.str (String.mk [c]))
  | .dict _ => .error "KeyError: 0"
  | v => .error ("\x27" ++ pyTypeName v ++ "\x27 object is not subscriptable")

/-- Split a character sequence at whitespace characters, keeping empty
chunks (the raw cuts underlying Python `str.split()`). -/
def splitChars : List Char → List (List Char)
  | [] => [[]]
  | c :: rest =>
    let r := splitChars rest
    if c.isWhitespace then [] :: r
    else
      match r with
      | [] => [[c]]
      | w :: ws => (c :: w) :: ws

/-- Python `text.split()` with no separator: whitespace-separated tokens,
empty chunks dropped. -/
def pyWords (s : String) : List String :=
  ((splitChars s.data).filter (fun w => !w.isEmpty)).map (fun w => String.mk w)

/-- Python `method.startswith(p)`, on the character sequence. -/
def pyStartsWith (s p : String) : Bool :=
  p.data.isPrefixOf s.data

/-- Models the Python expression `hash(str(data))` used by `train_model` and
`create_network` to generate ids.  CPython's string hash is process-seed
dependent and thus opaque; it is modelled by a fixed concrete function of the
dictionary.  No claim depends on the hash values, only on the id being
computed once and used both for the store key and the returned result. -/
def pyDictHash (o : Obj) : Nat :=
  o.foldl (fun a p => (a * 131 + p.1.foldl (fun b c => b * 131 + c.toNat) 7) * 7 +
    (match p.2 with
     | .str _ => 0 | .int _ => 1 | .float _ => 2 | .bool _ => 3
     | .none => 4 | .list _ => 5 | .dict _ => 6)) 7

/-! ## NLP component (`NLPProcessor`) -/

/-- `NLPProcessor.analyze_text(text)` (lines 202-211).  The argument is the
value of `data.get('text', '')`: on a non-string the first attribute access
`text.split()` raises `AttributeError`, modelled as an error. -/
def NLPProcessor.analyze_text (text : Value) : Except String Obj :=
  match text with
  | .str s =>
    .ok [("word_count", .int (pyWords s).length),
         ("char_count", .int s.length),
         ("sentences", .int (s.splitOn ".").length),
         ("language", .str "en"),
         ("complexity_score", .float (7/10)),
         ("readability", .float (8/10))]
  | v => .error ("\x27" ++ pyTypeName v ++ "\x27 object has no attribute \x27split\x27")

/-- `NLPProcessor.extract_entities` (lines 213-222): simulated constant
result; the text argument is unused by the source body. -/
def NLPProcessor.extract_entities (text : Value) : Except String Obj :=
  .ok [("entities", .list
         [.dict [("text", .str "EVA"), ("label", .str "SYSTEM"), ("confidence", .float (95/100))],
          .dict [("text", .str "Python"), ("label", .str "TECHNOLOGY"), ("confidence", .float (9/10))]]),
       ("entity_count", .int 2)]

/-- `NLPProcessor.sentiment_analysis` (lines 224-235): simulated constant
result. -/
def NLPProcessor.sentiment_analysis (text : Value) : Except String Obj :=
  .ok [("sentiment", .str "positive"),
       ("confidence", .float (85/100)),
       ("scores", .dict [("positive", .float (85/100)), ("negative", .float (1/10)),
                         ("neutral", .float (5/100))])]

/-- `NLPProcessor.generate_embeddings` (lines 237-245).  The source fills the
embedding with `np.random.rand(768)`, which is nondeterministic; it is
modelled as a fixed vector since no claim inspects the numeric entries. -/
def NLPProcessor.generate_embeddings (text : Value) : Except String Obj :=
  .ok [("embedding", .list (List.replicate 768 (.float 0))),
       ("dimension", .int 768),
       ("model", .str "distilbert-base-uncased")]

/-- `NLPProcessor.process` (lines 189-200): second-level exact-name routing
with `ValueError` for unknown NLP methods. -/
def NLPProcessor.process (method : String) (data options : Obj) : Except String Obj :=
  if method == "nlp_analyze_text" then
    NLPProcessor.analyze_text (dictGetD data "text" (.str ""))
  else if method == "nlp_extract_entities" then
    NLPProcessor.extract_entities (dictGetD data "text" (.str ""))
  else if method == "nlp_sentiment_analysis" then
    NLPProcessor.sentiment_analysis (dictGetD data "text" (.str ""))
  else if method == "nlp_generate_embeddings" then
    NLPProcessor.generate_embeddings (dictGetD data "text" (.str ""))
  else
    .error ("Unknown NLP method: " ++ method)

/-- `NLPProcessor.get_capabilities` (lines 247-254). -/
def NLPProcessor.get_capabilities : List String :=
  ["text_analysis", "entity_extraction", "sentiment_analysis",
   "embedding_generation", "language_detection"]

/-! ## ML component (`MLTrainer`) -/

/-- The mutable fields of `MLTrainer` (`self.models`, `self.scalers`). -/
structure MLTrainerState where
  models : List (String × Obj)
  scalers : List (String × Obj)

/-- `MLTrainer.train_model` (lines 282-303): registers a generated id in
`self.models` and returns the simulated metrics;  it never raises. -/
def MLTrainer.train_model (data options : Obj) (st : MLTrainerState) :
    MLTrainerState × Except String Obj :=
  let model_type := dictGetD options "model_type" (.str "random_forest")
  let model_id := "model_" ++ toString (pyDictHash data % 10000)
  let entry : Obj :=
    [("type", model_type), ("trained_at", .str "simulation"),
     ("features", dictGetD data "features" (.list [])),
     ("target", dictGetD data "target" (.str "unknown"))]
  ({ st with models := dictSet st.models model_id entry },
   .ok [("model_id", .str model_id), ("accuracy", .float (92/100)),
        ("precision", .float (89/100)), ("recall", .float (94/100)),
        ("f1_score", .float (91/100)), ("training_time", .float (5/2))])

/-- `MLTrainer.predict` (lines 305-321): raises `ValueError` when
`options.get('model_id')` is falsy or absent from `self.models`; `in` on a
string-keyed dict is false for every non-string key.  The store is read,
never written. -/
def MLTrainer.predict (data options : Obj) (st : MLTrainerState) : Except String Obj :=
  let model_id := dictGetNone options "model_id"
  let known :=
    match model_id with
    | .str s => (List.lookup s st.models).isSome
    | _ => false
  if !pyTruthy model_id || !known then
    .error ("Model " ++ pyStr model_id ++ " not found")
  else do
    let n ← pyLen (dictGetD data "input" (.list []))
    pure [("predictions",
            if 0 < n then .list [.float (1/10), .float (7/10), .float (2/10)] else .list []),
          ("confidence", .float (85/100)),
          ("model_id", model_id),
          ("prediction_time", .float (5/100))]

/-- `MLTrainer.evaluate_model` (lines 323-332): simulated constant result. -/
def MLTrainer.evaluate_model (data options : Obj) : Except String Obj :=
  .ok [("accuracy", .float (94/100)), ("precision", .float (91/100)),
       ("recall", .float (96/100)), ("f1_score", .float (93/100)),
       ("confusion_matrix", .list [.list [.int 85, .int 5], .list [.int 3, .int 92]]),
       ("roc_auc", .float (97/100))]

/-- `MLTrainer.feature_selection` (lines 334-348).  `np.random.rand()` per
feature is modelled as 0, since no claim inspects the importances. -/
def MLTrainer.feature_selection (data options : Obj) : Except String Obj := do
  let n ← pyLen (dictGetD data "features" (.list []))
  let names := (List.range n).map (fun i => "feature_" ++ toString i)
  pure [("feature_importance", .dict (names.map (fun k => (k, Value.float 0)))),
        ("selected_features", .list ((names.take 10).map .str)),
        ("importance_method", .str "random_forest")]

/-- `MLTrainer.process` (lines 269-280): second-level exact-name routing. -/
def MLTrainer.process (method : String) (data options : Obj) (st : MLTrainerState) :
    MLTrainerState × Except String Obj :=
  if method == "ml_train_model" then
    MLTrainer.train_model data options st
  else if method == "ml_predict" then
    (st, MLTrainer.predict data options st)
  else if method == "ml_evaluate_model" then
    (st, MLTrainer.evaluate_model data options)
  else if method == "ml_feature_selection" then
    (st, MLTrainer.feature_selection data options)
  else
    (st, .error ("Unknown ML method: " ++ method))

/-- `MLTrainer.get_capabilities` (lines 350-357). -/
def MLTrainer.get_capabilities : List String :=
  ["model_training", "prediction", "model_evaluation", "feature_selection",
   "hyperparameter_tuning"]

/-! ## Data component (`DataAnalyzer`) -/

/-- `DataAnalyzer.analyze_data` (lines 383-402).  With a falsy dataset the
source returns (successfully) a dict carrying an `error` key; otherwise
`len(dataset)` and `len(dataset[0])` may raise on unsized values. -/
def DataAnalyzer.analyze_data (data : Obj) : Except String Obj :=
  let dataset := dictGetD data "dataset" (.list [])
  if !pyTruthy dataset then .ok [("error", .str "No dataset provided")]
  else do
    let rows ← pyLen dataset
    let first ← pyIndex0 dataset
    let cols ← pyLen first
    pure [("rows", .int rows), ("columns", .int cols), ("missing_values", .int 5),
          ("data_types", .dict [("numeric", .int 8), ("categorical", .int 3), ("text", .int 2)]),
          ("statistics", .dict [("mean", .float (452/10)), ("std", .float (128/10)),
                                ("min", .float (1/10)), ("max", .float (999/10))])]

/-- `DataAnalyzer.clean_data` (lines 404-412): simulated constant result. -/
def DataAnalyzer.clean_data (data : Obj) : Except String Obj :=
  .ok [("cleaned_rows", .int 985), ("removed_duplicates", .int 15),
       ("filled_missing", .int 25), ("outliers_removed", .int 8),
       ("cleaning_score", .float (94/100))]

/-- `DataAnalyzer.transform_data` (lines 414-423). -/
def DataAnalyzer.transform_data (data options : Obj) : Except String Obj :=
  .ok [("transform_applied", dictGetD options "transform" (.str "standardize")),
       ("original_shape", .list [.int 1000, .int 13]),
       ("transformed_shape", .list [.int 1000, .int 13]),
       ("scaling_parameters", .dict [("mean", .float 0), ("std", .float 1)])]

/-- `DataAnalyzer.cluster_data` (lines 425-435).  `np.random.randint(0, n,
100)` requires an integer upper bound of at least 1 (it raises otherwise);
the random labels and centers are modelled as zeros since no claim inspects
them. -/
def DataAnalyzer.cluster_data (data options : Obj) : Except String Obj :=
  match dictGetD options "n_clusters" (.int 3) with
  | .int n =>
    if 1 ≤ n then
      .ok [("n_clusters", .int n),
           ("cluster_labels", .list (List.replicate 100 (.int 0))),
           ("cluster_centers", .list (List.replicate n.toNat (.list (List.replicate 5 (.float 0))))),
           ("silhouette_score", .float (72/100)), ("inertia", .float (2345/10))]
    else .error "low >= high"
  | v => .error ("high is out of bounds for \x27" ++ pyTypeName v ++ "\x27")

/-- `DataAnalyzer.process` (lines 370-381): second-level exact-name routing. -/
def DataAnalyzer.process (method : String) (data options : Obj) : Except String Obj :=
  if method == "data_analyze" then
    DataAnalyzer.analyze_data data
  else if method == "data_clean" then
    DataAnalyzer.clean_data data
  else if method == "data_transform" then
    DataAnalyzer.transform_data data options
  else if method == "data_cluster" then
    DataAnalyzer.cluster_data data options
  else
    .error ("Unknown data method: " ++ method)

/-- `DataAnalyzer.get_capabilities` (lines 437-444). -/
def DataAnalyzer.get_capabilities : List String :=
  ["data_analysis", "data_cleaning", "data_transformation", "clustering",
   "statistical_analysis"]

/-! ## Neural component (`NeuralEngine`) -/

/-- The mutable field of `NeuralEngine` (`self.networks`). -/
structure NeuralEngineState where
  networks : List (String × Obj)

/-- `NeuralEngine.create_network` (lines 471-488): registers a generated id
in `self.networks`; never raises. -/
def NeuralEngine.create_network (data options : Obj) (st : NeuralEngineState) :
    NeuralEngineState × Except String Obj :=
  let architecture := dictGetD data "architecture" (.str "feedforward")
  let network_id := "network_" ++ toString (pyDictHash data % 10000)
  let entry : Obj :=
    [("architecture", architecture),
     ("layers", dictGetD data "layers" (.list [.int 64, .int 32, .int 16])),
     ("activation", dictGetD data "activation" (.str "relu")),
     ("created_at", .str "simulation")]
  ({ networks := dictSet st.networks network_id entry },
   .ok [("network_id", .str network_id), ("architecture", architecture),
        ("parameters", .int 15840), ("memory_usage", .str "2.5MB")])

/-- `NeuralEngine.train_network` (lines 490-502): echoes the option values
into a simulated constant result; never raises and never touches the store. -/
def NeuralEngine.train_network (data options : Obj) : Except String Obj :=
  .ok [("network_id", dictGetNone options "network_id"),
       ("epochs_completed", dictGetD options "epochs" (.int 100)),
       ("final_loss", .float (234/10000)), ("final_accuracy", .float (967/1000)),
       ("training_time", .float (452/10)), ("convergence", .bool true)]

/-- `NeuralEngine.run_inference` (lines 504-517).  `np.random.rand(len, 3)`
is modelled as zeros of the same shape. -/
def NeuralEngine.run_inference (data options : Obj) : Except String Obj := do
  let n ← pyLen (dictGetD data "input" (.list []))
  pure [("network_id", dictGetNone options "network_id"),
        ("output", .list (List.replicate n (.list (List.replicate 3 (.float 0))))),
        ("confidence", .float (89/100)), ("inference_time", .float (3/1000))]

/-- `NeuralEngine.optimize_network` (lines 519-526): simulated constant
result. -/
def NeuralEngine.optimize_network (data options : Obj) : Except String Obj :=
  .ok [("optimization_applied", .str "pruning"), ("size_reduction", .float (35/100)),
       ("speed_improvement", .float (21/10)), ("accuracy_retained", .float (98/100))]

/-- `NeuralEngine.process` (lines 458-469): second-level exact-name routing. -/
def NeuralEngine.process (method : String) (data options : Obj) (st : NeuralEngineState) :
    NeuralEngineState × Except String Obj :=
  if method == "neural_create_network" then
    NeuralEngine.create_network data options st
  else if method == "neural_train" then
    (st, NeuralEngine.train_network data options)
  else if method == "neural_inference" then
    (st, NeuralEngine.run_inference data options)
  else if method == "neural_optimize" then
    (st, NeuralEngine.optimize_network data options)
  else
    (st, .error ("Unknown neural method: " ++ method))

/-- `NeuralEngine.get_capabilities` (lines 528-535). -/
def NeuralEngine.get_capabilities : List String :=
  ["network_creation", "training", "inference", "optimization",
   "transfer_learning"]

/-! ## Dispatcher (`EVAPythonCore`) -/

/-- `ProcessingRequest` (lines 40-46). -/
structure ProcessingRequest where
  method : String
  data : Obj
  options : Obj
  request_id : String

/-- `ProcessingResponse` (lines 48-55). -/
structure ProcessingResponse where
  request_id : String
  success : Bool
  result : Option Obj := Option.none
  error : Option String := Option.none
  metadata : Option Obj := Option.none

/-- The mutable fields of `EVAPythonCore` that the claims are about:
the dispatcher's model catalog (`self.models`), the lifecycle flag
(`self.is_initialized`) and the two stateful component stores. -/
structure EVAState where
  models : List (String × Obj)
  is_initialized : Bool
  ml : MLTrainerState
  neural : NeuralEngineState

/-- `EVAPythonCore.__init__` (lines 62-74): empty catalog, flag down, empty
component stores. -/
def initState : EVAState :=
  { models := [], is_initialized := false, ml := ⟨[], []⟩, neural := ⟨[]⟩ }

/-- The `nlp_base` catalog entry of `load_default_models` (lines 104-109). -/
def nlpBaseModel : Obj :=
  [("type", .str "transformer"), ("name", .str "distilbert-base-uncased"),
   ("status", .str "loaded"),
   ("capabilities", .list [.str "text_classification", .str "embeddings", .str "sentiment"])]

/-- The `ml_classifier` catalog entry of `load_default_models` (lines 112-117). -/
def mlClassifierModel : Obj :=
  [("type", .str "sklearn"), ("name", .str "random_forest"), ("status", .str "loaded"),
   ("capabilities", .list [.str "classification", .str "feature_importance"])]

/-- `EVAPythonCore.load_default_models` (lines 97-122): populates the
dispatcher's catalog; its own broad `except` only warns, so it is total. -/
def load_default_models (st : EVAState) : EVAState :=
  { st with models := dictSet (dictSet st.models "nlp_base" nlpBaseModel) "ml_classifier" mlClassifierModel }

/-- `EVAPythonCore.process_general` (lines 156-173): the two introspection
methods and a `ValueError` for every other unprefixed method. -/
def process_general (st : EVAState) (method : String) (data options : Obj) :
    Except String Obj :=
  if method == "health_check" then
    .ok [("status", .str "healthy"),
         ("initialized", .bool st.is_initialized),
         ("models_loaded", .int st.models.length),
         ("uptime", .str "simulation")]
  else if method == "get_capabilities" then
    .ok [("nlp", .list (NLPProcessor.get_capabilities.map .str)),
         ("ml", .list (MLTrainer.get_capabilities.map .str)),
         ("data", .list (DataAnalyzer.get_capabilities.map .str)),
         ("neural", .list (NeuralEngine.get_capabilities.map .str))]
  else
    .error ("Unknown method: " ++ method)

/-- The body of the `try` block of `process_request` (lines 130-139):
prefix routing to a component, or the general handler.  Component mutations
survive a raised exception, exactly as the Python object state does. -/
def routeRequest (st : EVAState) (req : ProcessingRequest) : EVAState × Except String Obj :=
  if pyStartsWith req.method "nlp_" then
    (st, NLPProcessor.process req.method req.data req.options)
  else if pyStartsWith req.method "ml_" then
    let res := MLTrainer.process req.method req.data req.options st.ml
    ({ st with ml := res.1 }, res.2)
  else if pyStartsWith req.method "data_" then
    (st, DataAnalyzer.process req.method req.data req.options)
  else if pyStartsWith req.method "neural_" then
    let res := NeuralEngine.process req.method req.data req.options st.neural
    ({ st with neural := res.1 }, res.2)
  else
    (st, process_general st req.method req.data req.options)

/-- The dispatcher-owned metadata of a success response (line 145). -/
def defaultMetadata : Obj :=
  [("processing_time", .float (1/10)), ("model_used", .str "default")]

/-- `EVAPythonCore.process_request` (lines 124-154): the single error
boundary.  A handler result is wrapped into a success response; any raised
exception is caught and wrapped into a failure response carrying `str(e)`. -/
def process_request (st : EVAState) (req : ProcessingRequest) :
    ProcessingResponse × EVAState :=
  match routeRequest st req with
  | (st1, .ok result) =>
    ({ request_id := req.request_id, success := true, result := some result,
       metadata := some defaultMetadata }, st1)
  | (st1, .error e) =>
    ({ request_id := req.request_id, success := false, error := some e }, st1)

/-! ## Initialization (`EVAPythonCore.initialize`, lines 76-95)

The four component `initialize` bodies in the source are logging no-ops and
cannot raise; the dispatcher's `initialize` nevertheless wraps them in a
`try` whose `except` re-raises.  To state the lifecycle claims the component
initializations are abstracted by their observable outcome (`ok` or a raised
error); the source's actual components always produce `ok`. -/

/-- Outcome of each component's `initialize()` call, in source order. -/
structure InitOutcomes where
  nlp : Except String Unit
  ml : Except String Unit
  dataAnalyzer : Except String Unit
  neural : Except String Unit

/-- The outcomes of the source's component `initialize` bodies (lines
183-187, 264-267, 365-368, 453-456): logging only, never raising. -/
def actualInitOutcomes : InitOutcomes :=
  { nlp := .ok (), ml := .ok (), dataAnalyzer := .ok (), neural := .ok () }

/-- `EVAPythonCore.initialize` (lines 76-95): sequential component
initialization; the first raised error re-raises out of the `try` before
`is_initialized` is touched; on success `load_default_models` runs and the
flag is set. -/
def initSystem (oc : InitOutcomes) (st : EVAState) : Except String EVAState :=
  match oc.nlp with
  | .error e => .error e
  | .ok _ =>
    match oc.ml with
    | .error e => .error e
    | .ok _ =>
      match oc.dataAnalyzer with
      | .error e => .error e
      | .ok _ =>
        match oc.neural with
        | .error e => .error e
        | .ok _ => .ok { load_default_models st with is_initialized := true }

/-! ## Helper lemmas -/

/-- The second routing level of `MLTrainer` raises only before any mutation:
an error outcome leaves the trainer store untouched. -/
theorem mlProcess_error (m : String) (d o : Obj) (s s1 : MLTrainerState) (e : String)
    (h : MLTrainer.process m d o s = (s1, Except.error e)) : s1 = s := by
  unfold MLTrainer.process at h
  split_ifs at h
  · simp [MLTrainer.train_model] at h
  all_goals simp only [Prod.mk.injEq] at h
  all_goals exact h.1.symm

/-- Projection form of `mlProcess_error`. -/
theorem mlProcess_fst_of_error (m : String) (d o : Obj) (s : MLTrainerState) (e : String)
    (h : (MLTrainer.process m d o s).2 = Except.error e) :
    (MLTrainer.process m d o s).1 = s :=
  mlProcess_error m d o s _ e (by rw [← h])

/-- The second routing level of `NeuralEngine` raises only before any
mutation. -/
theorem neuralProcess_error (m : String) (d o : Obj) (s s1 : NeuralEngineState) (e : String)
    (h : NeuralEngine.process m d o s = (s1, Except.error e)) : s1 = s := by
  unfold NeuralEngine.process at h
  split_ifs at h
  · simp [NeuralEngine.create_network] at h
  all_goals simp only [Prod.mk.injEq] at h
  all_goals exact h.1.symm

/-- Projection form of `neuralProcess_error`. -/
theorem neuralProcess_fst_of_error (m : String) (d o : Obj) (s : NeuralEngineState) (e : String)
    (h : (NeuralEngine.process m d o s).2 = Except.error e) :
    (NeuralEngine.process m d o s).1 = s :=
  neuralProcess_error m d o s _ e (by rw [← h])

/-- A raised exception inside the `try` block leaves the whole dispatcher
state unchanged. -/
theorem routeRequest_error_state (st : EVAState) (req : ProcessingRequest)
    (st1 : EVAState) (e : String)
    (h : routeRequest st req = (st1, Except.error e)) : st1 = st := by
  unfold routeRequest at h
  split_ifs at h
  · simp only [Prod.mk.injEq] at h
    exact h.1.symm
  · simp only [Prod.mk.injEq] at h
    obtain ⟨h1, h2⟩ := h
    rw [← h1, mlProcess_fst_of_error _ _ _ _ _ h2]
  · simp only [Prod.mk.injEq] at h
    exact h.1.symm
  · simp only [Prod.mk.injEq] at h
    obtain ⟨h1, h2⟩ := h
    rw [← h1, neuralProcess_fst_of_error _ _ _ _ _ h2]
  · simp only [Prod.mk.injEq] at h
    exact h.1.symm

/-- Routing never touches the `is_initialized` flag. -/
theorem routeRequest_fst_flag (st : EVAState) (req : ProcessingRequest) :
    ((routeRequest st req).1).is_initialized = st.is_initialized := by
  unfold routeRequest
  split_ifs <;> rfl

/-- The state returned by `process_request` is the state of the routed
handler call. -/
theorem process_request_snd (st : EVAState) (req : ProcessingRequest) :
    (process_request st req).2 = (routeRequest st req).1 := by
  unfold process_request
  cases h : routeRequest st req with
  | mk s r => cases r <;> rfl

/-! ## Claims -/

/-- Claim C1: for every request (any method, data, options, request id) the
response of `process_request` echoes the caller-supplied `request_id`, both
on the success and on the failure path. -/
theorem request_id_echoed (st : EVAState) (req : ProcessingRequest) :
    ((process_request st req).1).request_id = req.request_id := by
  unfold process_request
  cases h : routeRequest st req with
  | mk s r => cases r <;> rfl

/-- Claim C2: every response of `process_request` satisfies the
mutual-exclusivity invariant: `success = true` comes with `error` absent and
`result` populated, and `success = false` comes with `result` absent and
`error` populated. -/
theorem response_mutual_exclusion (st : EVAState) (req : ProcessingRequest) :
    ((process_request st req).1.success = true
       ∧ (process_request st req).1.error = Option.none
       ∧ ((process_request st req).1.result).isSome = true)
  ∨ ((process_request st req).1.success = false
       ∧ (process_request st req).1.result = Option.none
       ∧ ((process_request st req).1.error).isSome = true) := by
  unfold process_request
  cases h : routeRequest st req with
  | mk s r =>
    cases r with
    | ok v => exact Or.inl ⟨rfl, rfl, rfl⟩
    | error e => exact Or.inr ⟨rfl, rfl, rfl⟩

/-- Claim C3: `process_request` is total at its boundary: whatever the routed
handler does — return a result or raise an error (unknown method included) —
the caller receives a well-formed `ProcessingResponse`: every raised error is
caught and wrapped into the failure shape, every result into the success
shape; no exception crosses the boundary. -/
theorem boundary_totality (st : EVAState) (req : ProcessingRequest) :
    (∀ e, (routeRequest st req).2 = Except.error e →
      (process_request st req).1 =
        { request_id := req.request_id, success := false, error := some e })
  ∧ (∀ r, (routeRequest st req).2 = Except.ok r →
      (process_request st req).1 =
        { request_id := req.request_id, success := true, result := some r,
          metadata := some defaultMetadata }) := by
  constructor
  · intro e he
    unfold process_request
    cases h : routeRequest st req with
    | mk s r =>
      rw [h] at he
      cases r with
      | ok v => exact absurd he (by simp)
      | error e2 =>
        simp only [Except.error.injEq] at he
        subst he
        rfl
  · intro r0 hr
    unfold process_request
    cases h : routeRequest st req with
    | mk s r =>
      rw [h] at hr
      cases r with
      | error e => exact absurd hr (by simp)
      | ok v =>
        simp only [Except.ok.injEq] at hr
        subst hr
        rfl

/-- Witness for C3 at a concrete unrecognized method. -/
theorem boundary_totality_witness :
    (process_request initState ⟨"bogus", [], [], "w1"⟩).1 =
      { request_id := "w1", success := false, error := some "Unknown method: bogus" } :=
  (boundary_totality initState ⟨"bogus", [], [], "w1"⟩).1 "Unknown method: bogus" rfl

/-- Claim C5: if any capability component's initialization raises, the
dispatcher's overall initialization fails (the first error propagates out)
and the `is_initialized` flag is not set; the flag transitions to `true`
exactly when all components initialize successfully, and no
`process_request` call ever changes it. -/
theorem init_lifecycle :
    (∀ oc st, ((∃ e, oc.nlp = Except.error e) ∨ (∃ e, oc.ml = Except.error e)
        ∨ (∃ e, oc.dataAnalyzer = Except.error e) ∨ (∃ e, oc.neural = Except.error e)) →
        ∃ e, initSystem oc st = Except.error e)
  ∧ (∀ oc st e, oc.nlp = Except.error e → initSystem oc st = Except.error e)
  ∧ (∀ oc st st1, initSystem oc st = Except.ok st1 →
        st1.is_initialized = true ∧ oc.nlp = Except.ok () ∧ oc.ml = Except.ok ()
          ∧ oc.dataAnalyzer = Except.ok () ∧ oc.neural = Except.ok ())
  ∧ initState.is_initialized = false
  ∧ (∀ st req, ((process_request st req).2).is_initialized = st.is_initialized) := by
  refine ⟨?_, ?_, ?_, rfl, ?_⟩
  · intro oc st h
    obtain ⟨no, mo, da, ne⟩ := oc
    cases no with
    | error e => exact ⟨e, rfl⟩
    | ok u =>
      cases mo with
      | error e => exact ⟨e, rfl⟩
      | ok u2 =>
        cases da with
        | error e => exact ⟨e, rfl⟩
        | ok u3 =>
          cases ne with
          | error e => exact ⟨e, rfl⟩
          | ok u4 => simp at h
  · intro oc st e h
    obtain ⟨no, mo, da, ne⟩ := oc
    simp only at h
    rw [h]
    rfl
  · intro oc st st1 h1
    obtain ⟨no, mo, da, ne⟩ := oc
    rcases no with e | u
    · simp [initSystem] at h1
    rcases mo with e | u2
    · simp [initSystem] at h1
    rcases da with e | u3
    · simp [initSystem] at h1
    rcases ne with e | u4
    · simp [initSystem] at h1
    simp only [initSystem, Except.ok.injEq] at h1
    rw [← h1]
    exact ⟨rfl, rfl, rfl, rfl, rfl⟩
  · intro st req
    rw [process_request_snd]
    exact routeRequest_fst_flag st req

/-- Witness for C5: a failing NLP component aborts initialization with its
own error. -/
theorem init_lifecycle_witness :
    initSystem ⟨Except.error "boom", Except.ok (), Except.ok (), Except.ok ()⟩ initState
      = Except.error "boom" :=
  init_lifecycle.2.1 ⟨Except.error "boom", Except.ok (), Except.ok (), Except.ok ()⟩
    initState "boom" rfl

/-- Claim C6: failure is atomic: whenever `process_request` answers
`success = false`, the entire dispatcher state — the trainer store, the
network store and the model catalog — is unchanged from before the call. -/
theorem failure_atomicity (st : EVAState) (req : ProcessingRequest)
    (h : (process_request st req).1.success = false) :
    (process_request st req).2 = st := by
  rw [process_request_snd]
  unfold process_request at h
  cases hr : routeRequest st req with
  | mk s r =>
    rw [hr] at h
    cases r with
    | ok v => simp at h
    | error e =>
      exact routeRequest_error_state st req s e hr

/-- Witness for C6: an `ml_predict` request for an unknown model id fails
and leaves the fresh state untouched. -/
theorem failure_atomicity_witness :
    (process_request initState ⟨"ml_predict", [], [("model_id", Value.str "missing")], "w2"⟩).2
      = initState :=
  failure_atomicity initState ⟨"ml_predict", [], [("model_id", Value.str "missing")], "w2"⟩ rfl

/-- Claim C7: a `health_check` request always succeeds and its
`result.initialized` field reports the `is_initialized` flag truthfully:
`false` on the fresh state, `true` on any state produced by a successful
initialization. -/
theorem health_check_reports_flag :
    (∀ st rid, (process_request st ⟨"health_check", [], [], rid⟩).1.success = true
      ∧ (process_request st ⟨"health_check", [], [], rid⟩).1.result.bind
          (List.lookup "initialized") = some (Value.bool st.is_initialized))
  ∧ (∀ rid, (process_request initState ⟨"health_check", [], [], rid⟩).1.result.bind
        (List.lookup "initialized") = some (Value.bool false))
  ∧ (∀ oc st st1 rid, initSystem oc st = Except.ok st1 →
      (process_request st1 ⟨"health_check", [], [], rid⟩).1.result.bind
        (List.lookup "initialized") = some (Value.bool true)) := by
  refine ⟨fun st rid => ⟨rfl, rfl⟩, fun rid => rfl, ?_⟩
  intro oc st st1 rid h1
  obtain ⟨no, mo, da, ne⟩ := oc
  rcases no with e | u
  · simp [initSystem] at h1
  rcases mo with e | u2
  · simp [initSystem] at h1
  rcases da with e | u3
  · simp [initSystem] at h1
  rcases ne with e | u4
  · simp [initSystem] at h1
  simp only [initSystem, Except.ok.injEq] at h1
  rw [← h1]
  rfl

/-- Witness for C7: after the source's own (always succeeding) component
initializations, `health_check` reports `initialized = true`. -/
theorem health_check_witness :
    (process_request { load_default_models initState with is_initialized := true }
        ⟨"health_check", [], [], "r1"⟩).1.result.bind (List.lookup "initialized")
      = some (Value.bool true) :=
  health_check_reports_flag.2.2 actualInitOutcomes initState _ "r1" rfl

/-- Claim C8: `nlp_analyze_text` on `text = "hello world"` succeeds with
`word_count = 2`; in general the reported word count is the number of
whitespace-separated tokens of the text field. -/
theorem analyze_text_word_count :
    (∀ st rid,
        (process_request st ⟨"nlp_analyze_text", [("text", Value.str "hello world")], [], rid⟩).1.success
          = true
      ∧ (process_request st ⟨"nlp_analyze_text", [("text", Value.str "hello world")], [], rid⟩).1.result.bind
          (List.lookup "word_count") = some (Value.int 2))
  ∧ (∀ text : String, ∃ r, NLPProcessor.analyze_text (Value.str text) = Except.ok r
      ∧ List.lookup "word_count" r = some (Value.int (pyWords text).length)) :=
  ⟨fun st rid => ⟨rfl, rfl⟩, fun text => ⟨_, rfl, rfl⟩⟩

/-- Claim C9: `get_capabilities` is idempotent and pure: it leaves the state
unchanged, two consecutive calls return the same result (identical responses
when the request id is reused), and the aggregated result is the constant
per-component capability catalog. -/
theorem capabilities_idempotent (st : EVAState) (rid1 rid2 : String) :
    (process_request st ⟨"get_capabilities", [], [], rid1⟩).2 = st
  ∧ (process_request st ⟨"get_capabilities", [], [], rid1⟩).1.result
      = (process_request ((process_request st ⟨"get_capabilities", [], [], rid1⟩).2)
          ⟨"get_capabilities", [], [], rid2⟩).1.result
  ∧ (process_request st ⟨"get_capabilities", [], [], rid1⟩).1.success
      = (process_request ((process_request st ⟨"get_capabilities", [], [], rid1⟩).2)
          ⟨"get_capabilities", [], [], rid2⟩).1.success
  ∧ (process_request st ⟨"get_capabilities", [], [], rid1⟩).1
      = (process_request ((process_request st ⟨"get_capabilities", [], [], rid1⟩).2)
          ⟨"get_capabilities", [], [], rid1⟩).1
  ∧ (process_request st ⟨"get_capabilities", [], [], rid1⟩).1.result
      = some [("nlp", .list (NLPProcessor.get_capabilities.map .str)),
              ("ml", .list (MLTrainer.get_capabilities.map .str)),
              ("data", .list (DataAnalyzer.get_capabilities.map .str)),
              ("neural", .list (NeuralEngine.get_capabilities.map .str))] :=
  ⟨rfl, rfl, rfl, rfl, rfl⟩

/-- After a Python dict assignment `d[k] = v`, looking up `k` yields `v`. -/
theorem lookup_dictSet_self {α : Type} (o : List (String × α)) (k : String) (v : α) :
    List.lookup k (dictSet o k v) = some v := by
  induction o with
  | nil => simp [dictSet, List.lookup]
  | cons p rest ih =>
    obtain ⟨k1, v1⟩ := p
    by_cases hk : (k1 == k) = true
    · simp [dictSet, hk, List.lookup, (beq_iff_eq ..).mp hk]
    · have hk2 : (k == k1) = false := by
        simp only [beq_eq_false_iff_ne]
        intro hc
        exact hk (by simp [hc])
      simp only [dictSet, hk, Bool.false_eq_true, if_false, List.lookup]
      rw [hk2]
      exact ih

/-- Lookup after a dict assignment finds the assigned key. -/
theorem lookup_isSome_dictSet {α : Type} (o : List (String × α)) (k : String) (v : α) :
    (List.lookup k (dictSet o k v)).isSome = true := by
  rw [lookup_dictSet_self]
  rfl

/-- A generated `model_...` id is never the empty string. -/
theorem modelId_ne_empty (x : String) : (("model_" ++ x) == "") = false := by
  rw [beq_eq_false_iff_ne]
  intro hc
  have h2 : ('m' :: 'o' :: 'd' :: 'e' :: 'l' :: '_' :: x.data) = ([] : List Char) :=
    congrArg String.data hc
  exact List.cons_ne_nil _ _ h2

/-- `ml_predict` succeeds when the model id is truthy, registered, and the
input field has a Python length. -/
theorem predict_request_success (st : EVAState) (d2 : Obj) (m rid : String)
    (hm : (m == "") = false) (hk : (List.lookup m st.ml.models).isSome = true)
    (n : Nat) (hn : pyLen (dictGetD d2 "input" (Value.list [])) = Except.ok n) :
    (process_request st ⟨"ml_predict", d2, [("model_id", Value.str m)], rid⟩).1.success = true := by
  unfold process_request routeRequest MLTrainer.process MLTrainer.predict
  simp only [dictGetNone, List.lookup, beq_self_eq_true, Option.getD_some, pyTruthy, hm, hk, hn]
  simp [pyStartsWith]

/-- Claim C10: the train-then-predict round trip: if `ml_train_model`
reports `model_id = m` then `m` is registered in the trainer store of the
post-state, and an immediately following `ml_predict` with
`options.model_id = m` (and a sized `input` field) succeeds; moreover, for a
nonempty id, `ml_predict` accepts exactly the ids present in the store. -/
theorem train_then_predict :
    (∀ st d o rid m,
        (process_request st ⟨"ml_train_model", d, o, rid⟩).1.result.bind (List.lookup "model_id")
          = some (Value.str m) →
        (List.lookup m (((process_request st ⟨"ml_train_model", d, o, rid⟩).2).ml.models)).isSome = true
        ∧ ∀ d2 rid2 n, pyLen (dictGetD d2 "input" (Value.list [])) = Except.ok n →
            (process_request ((process_request st ⟨"ml_train_model", d, o, rid⟩).2)
               ⟨"ml_predict", d2, [("model_id", Value.str m)], rid2⟩).1.success = true)
  ∧ (∀ st d2 rid m, (m == "") = false →
        ((process_request st ⟨"ml_predict", d2, [("model_id", Value.str m)], rid⟩).1.success = true
          ↔ (List.lookup m st.ml.models).isSome = true
             ∧ ∃ n, pyLen (dictGetD d2 "input" (Value.list [])) = Except.ok n)) := by
  constructor
  · intro st d o rid m h
    have h2 : some (Value.str ("model_" ++ toString (pyDictHash d % 10000)))
        = some (Value.str m) := h
    simp only [Option.some.injEq, Value.str.injEq] at h2
    subst h2
    constructor
    · exact lookup_isSome_dictSet st.ml.models ("model_" ++ toString (pyDictHash d % 10000))
        [("type", dictGetD o "model_type" (Value.str "random_forest")),
         ("trained_at", Value.str "simulation"),
         ("features", dictGetD d "features" (Value.list [])),
         ("target", dictGetD d "target" (Value.str "unknown"))]
    · intro d2 rid2 n hn
      exact predict_request_success _ d2 _ rid2 (modelId_ne_empty _)
        (lookup_isSome_dictSet st.ml.models ("model_" ++ toString (pyDictHash d % 10000))
          [("type", dictGetD o "model_type" (Value.str "random_forest")),
           ("trained_at", Value.str "simulation"),
           ("features", dictGetD d "features" (Value.list [])),
           ("target", dictGetD d "target" (Value.str "unknown"))]) n hn
  · intro st d2 rid m hm
    constructor
    · intro hs
      by_cases hk : (List.lookup m st.ml.models).isSome = true
      · refine ⟨hk, ?_⟩
        cases hn : pyLen (dictGetD d2 "input" (Value.list [])) with
        | ok n => exact ⟨n, rfl⟩
        | error e =>
          exfalso
          revert hs
          unfold process_request routeRequest MLTrainer.process MLTrainer.predict
          simp only [dictGetNone, List.lookup, beq_self_eq_true, Option.getD_some,
            pyTruthy, hm, hk, hn]
          simp [pyStartsWith]
      · exfalso
        revert hs
        have hk2 : (List.lookup m st.ml.models).isSome = false := by
          cases hx : (List.lookup m st.ml.models).isSome
          · rfl
          · exact absurd hx hk
        unfold process_request routeRequest MLTrainer.process MLTrainer.predict
        simp only [dictGetNone, List.lookup, beq_self_eq_true, Option.getD_some,
          pyTruthy, hm, hk2]
        simp [pyStartsWith]
    · rintro ⟨hk, n, hn⟩
      exact predict_request_success st d2 m rid hm hk n hn

/-- Witness for C10: training on the empty data dict registers `model_7`
and the immediate predict on it succeeds. -/
theorem train_then_predict_witness :
    (process_request ((process_request initState ⟨"ml_train_model", [], [], "r3"⟩).2)
        ⟨"ml_predict", [], [("model_id", Value.str "model_7")], "r4"⟩).1.success = true :=
  ((train_then_predict.1 initState [] [] "r3" "model_7" rfl).2) [] "r4" 0 rfl

/-- Claim C4: unknown methods are rejected at both routing levels: a method
carrying a registered prefix (`nlp_`, `ml_`, `data_`, `neural_`) that is not
one of that component's exact handler names fails with that component's
unknown-method error naming the method, and a method with no registered
prefix other than `health_check` / `get_capabilities` fails with the general
handler's unknown-method error naming the method. -/
theorem unknown_method_rejection :
    (∀ t st d o rid, ("nlp_" ++ t) ∉ ["nlp_analyze_text", "nlp_extract_entities",
        "nlp_sentiment_analysis", "nlp_generate_embeddings"] →
        (process_request st ⟨"nlp_" ++ t, d, o, rid⟩).1.success = false
        ∧ (process_request st ⟨"nlp_" ++ t, d, o, rid⟩).1.error
            = some ("Unknown NLP method: " ++ ("nlp_" ++ t)))
  ∧ (∀ t st d o rid, ("ml_" ++ t) ∉ ["ml_train_model", "ml_predict",
        "ml_evaluate_model", "ml_feature_selection"] →
        (process_request st ⟨"ml_" ++ t, d, o, rid⟩).1.success = false
        ∧ (process_request st ⟨"ml_" ++ t, d, o, rid⟩).1.error
            = some ("Unknown ML method: " ++ ("ml_" ++ t)))
  ∧ (∀ t st d o rid, ("data_" ++ t) ∉ ["data_analyze", "data_clean",
        "data_transform", "data_cluster"] →
        (process_request st ⟨"data_" ++ t, d, o, rid⟩).1.success = false
        ∧ (process_request st ⟨"data_" ++ t, d, o, rid⟩).1.error
            = some ("Unknown data method: " ++ ("data_" ++ t)))
  ∧ (∀ t st d o rid, ("neural_" ++ t) ∉ ["neural_create_network", "neural_train",
        "neural_inference", "neural_optimize"] →
        (process_request st ⟨"neural_" ++ t, d, o, rid⟩).1.success = false
        ∧ (process_request st ⟨"neural_" ++ t, d, o, rid⟩).1.error
            = some ("Unknown neural method: " ++ ("neural_" ++ t)))
  ∧ (∀ m st d o rid, pyStartsWith m "nlp_" = false → pyStartsWith m "ml_" = false →
        pyStartsWith m "data_" = false → pyStartsWith m "neural_" = false →
        m ≠ "health_check" → m ≠ "get_capabilities" →
        (process_request st ⟨m, d, o, rid⟩).1.success = false
        ∧ (process_request st ⟨m, d, o, rid⟩).1.error = some ("Unknown method: " ++ m)) := by
  refine ⟨?_, ?_, ?_, ?_, ?_⟩
  · intro t st d o rid hmem
    simp only [List.mem_cons, List.mem_singleton, List.not_mem_nil] at hmem
    push_neg at hmem
    obtain ⟨h1, h2, h3, h4, -⟩ := hmem
    have hs : pyStartsWith ("nlp_" ++ t) "nlp_" = true := by
      have ha : ("nlp_" ++ t).data = 'n' :: 'l' :: 'p' :: '_' :: t.data := rfl
      have hb : "nlp_".data = ['n', 'l', 'p', '_'] := rfl
      unfold pyStartsWith
      rw [ha, hb]
      simp [List.isPrefixOf]
    unfold process_request routeRequest NLPProcessor.process
    simp [hs, beq_eq_false_iff_ne.mpr h1, beq_eq_false_iff_ne.mpr h2,
      beq_eq_false_iff_ne.mpr h3, beq_eq_false_iff_ne.mpr h4]
  · intro t st d o rid hmem
    simp only [List.mem_cons, List.mem_singleton, List.not_mem_nil] at hmem
    push_neg at hmem
    obtain ⟨h1, h2, h3, h4, -⟩ := hmem
    have hs0 : pyStartsWith ("ml_" ++ t) "nlp_" = false := rfl
    have hs : pyStartsWith ("ml_" ++ t) "ml_" = true := by
      have ha : ("ml_" ++ t).data = 'm' :: 'l' :: '_' :: t.data := rfl
      have hb : "ml_".data = ['m', 'l', '_'] := rfl
      unfold pyStartsWith
      rw [ha, hb]
      simp [List.isPrefixOf]
    unfold process_request routeRequest MLTrainer.process
    simp [hs0, hs, beq_eq_false_iff_ne.mpr h1, beq_eq_false_iff_ne.mpr h2,
      beq_eq_false_iff_ne.mpr h3, beq_eq_false_iff_ne.mpr h4]
  · intro t st d o rid hmem
    simp only [List.mem_cons, List.mem_singleton, List.not_mem_nil] at hmem
    push_neg at hmem
    obtain ⟨h1, h2, h3, h4, -⟩ := hmem
    have hs0 : pyStartsWith ("data_" ++ t) "nlp_" = false := rfl
    have hs1 : pyStartsWith ("data_" ++ t) "ml_" = false := rfl
    have hs : pyStartsWith ("data_" ++ t) "data_" = true := by
      have ha : ("data_" ++ t).data = 'd' :: 'a' :: 't' :: 'a' :: '_' :: t.data := rfl
      have hb : "data_".data = ['d', 'a', 't', 'a', '_'] := rfl
      unfold pyStartsWith
      rw [ha, hb]
      simp [List.isPrefixOf]
    unfold process_request routeRequest DataAnalyzer.process
    simp [hs0, hs1, hs, beq_eq_false_iff_ne.mpr h1, beq_eq_false_iff_ne.mpr h2,
      beq_eq_false_iff_ne.mpr h3, beq_eq_false_iff_ne.mpr h4]
  · intro t st d o rid hmem
    simp only [List.mem_cons, List.mem_singleton, List.not_mem_nil] at hmem
    push_neg at hmem
    obtain ⟨h1, h2, h3, h4, -⟩ := hmem
    have hs0 : pyStartsWith ("neural_" ++ t) "nlp_" = false := rfl
    have hs1 : pyStartsWith ("neural_" ++ t) "ml_" = false := rfl
    have hs2 : pyStartsWith ("neural_" ++ t) "data_" = false := rfl
    have hs : pyStartsWith ("neural_" ++ t) "neural_" = true := by
      have ha : ("neural_" ++ t).data = 'n' :: 'e' :: 'u' :: 'r' :: 'a' :: 'l' :: '_' :: t.data := rfl
      have hb : "neural_".data = ['n', 'e', 'u', 'r', 'a', 'l', '_'] := rfl
      unfold pyStartsWith
      rw [ha, hb]
      simp [List.isPrefixOf]
    unfold process_request routeRequest NeuralEngine.process
    simp [hs0, hs1, hs2, hs, beq_eq_false_iff_ne.mpr h1, beq_eq_false_iff_ne.mpr h2,
      beq_eq_false_iff_ne.mpr h3, beq_eq_false_iff_ne.mpr h4]
  · intro m st d o rid hs0 hs1 hs2 hs3 h5 h6
    unfold process_request routeRequest process_general
    simp [hs0, hs1, hs2, hs3, beq_eq_false_iff_ne.mpr h5, beq_eq_false_iff_ne.mpr h6]

/-- Witness for C4 at the spec's own example `nlp_bogus`. -/
theorem unknown_method_rejection_witness :
    (process_request initState ⟨"nlp_bogus", [], [], "w3"⟩).1.success = false
    ∧ (process_request initState ⟨"nlp_bogus", [], [], "w3"⟩).1.error
        = some "Unknown NLP method: nlp_bogus" :=
  unknown_method_rejection.1 "bogus" initState [] [] "w3" (by decide)
